import Mathlib

/-!
# Verification of the pager authentication / RBAC engine

A shallow embedding of the `pager` library (Go): the relational identity
store (`rbac_user`, `rbac_role`, `rbac_permission` and the two join
relations), the schema-layer entity operations (`schema/user.go`,
`schema/role.go`, `schema/permission.go`), the Redis-backed session cache,
and the auth module (`auth.go`: `Authenticate`, `SignIn`, `Logout`,
`VerifyToken`, `getUserPrinciple` and the three guard middlewares).

Conventions of the embedding:
* Go's `int64` ids are `Int`.
* A Go pair `(value, error)` return is either `Except Err value` (when the
  value is meaningless on error) or `Option value × Option Err` (when the
  source inspects the two components independently, as `Authenticate` does
  with `FindUser`'s results).
* `*sql.DB` handles are `Option Store`: `none` is a nil handle, `some st`
  is a live connection to the relational state `st`.  A store whose
  `failure` field is `some msg` errors every query with that message
  (a connectivity failure), mirroring driver errors other than
  `sql.ErrNoRows`.
* The SQL text of each query is translated to its MySQL result semantics
  over the relational state; comments on each definition name the query
  constant of the source it embeds.
* Go panics (nil-interface type assertions) are an explicit
  `GoResult.panicked` outcome.
-/

deriving instance DecidableEq for Except

namespace Pager

/-- Go `int64`. -/
abbrev Int64 := Int

/-- A row of the `rbac_user` table (fields of `schema.User`). -/
structure UserRow where
  id : Int64
  username : String
  email : String
  password : String
  active : Bool
deriving DecidableEq

/-- A row of the `rbac_role` table (fields of `schema.Role`; timestamps omitted,
no query in scope depends on them). -/
structure RoleRow where
  id : Int64
  name : String
  description : String
deriving DecidableEq

/-- A row of the `rbac_permission` table (fields of `schema.Permission`). -/
structure PermissionRow where
  id : Int64
  name : String
  method : String
  route : String
  description : String
deriving DecidableEq

/-- A row of the `rbac_user_role` join table, in the column order of
`assignRoleQuery` (`role_id`, `user_id`). -/
structure UserRoleRow where
  roleId : Int64
  userId : Int64
deriving DecidableEq

/-- A row of the `rbac_role_permission` join table (`role_id`, `permission_id`). -/
structure RolePermissionRow where
  roleId : Int64
  permissionId : Int64
deriving DecidableEq

/-- The relational state behind a live `*sql.DB` handle.  `failure` models a
connectivity/driver failure: when it is `some msg`, every query against the
store errors with `msg` (an error distinct from `sql.ErrNoRows`). -/
structure Store where
  users : List UserRow
  roles : List RoleRow
  permissions : List PermissionRow
  userRoles : List UserRoleRow
  rolePermissions : List RolePermissionRow
  failure : Option String := none
deriving DecidableEq

/-- The Go `error` values that appear in the embedded code paths:
the `pager` package sentinels, the `schema` package sentinel, the `auth`
package sentinels, driver errors (`storeErr`) and the go-redis `redis.Nil`
reply for a `GET` on a missing key. -/
inductive Err where
  | noSchema                     -- pager.ErrNoSchema
  | invalidParams                -- pager.ErrInvalidParams
  | invalidID                    -- schema.ErrInvalidID
  | storeErr (msg : String)      -- an underlying storage/driver error
  | invalidPasswordLogin         -- auth.ErrInvalidPasswordLogin
  | invalidUserLogin             -- auth.ErrInvalidUserLogin
  | creatingToken                -- auth.ErrCreatingToken
  | creatingCookie               -- auth.ErrCreatingCookie
  | invalidCookie                -- auth.ErrInvalidCookie
  | invalidAuthorization         -- auth.ErrInvalidAuthorization
  | validateCookie               -- auth.ErrValidateCookie
  | userNotFound                 -- auth.ErrUserNotFound
  | userNotActive                -- auth.ErrUserNotActive
  | redisNil                     -- go-redis: GET on an absent key
deriving DecidableEq

/-- The `schema.User` entity: the embedded `Entity` (its `DBContract`
handle) plus the row fields. -/
structure User where
  DBContract : Option Store
  row : UserRow
deriving DecidableEq

/-- The `schema.Role` entity. -/
structure Role where
  DBContract : Option Store
  row : RoleRow
deriving DecidableEq

/-- The `schema.Permission` entity. -/
structure Permission where
  DBContract : Option Store
  row : PermissionRow
deriving DecidableEq

/-! ## Access-check queries (`schema/user.go`)

Each definition translates the SQL text of the corresponding query constant
into its MySQL result semantics over `Store`. -/

/-- The number of rows produced by the join of `getUserRoleQuery`:
`FROM rbac_user_role ur JOIN rbac_role r ON ur.role_id = r.id
WHERE ur.user_id = ? AND r.name = ?`. -/
def userRoleJoinCount (st : Store) (userId : Int64) (roleName : String) : Nat :=
  (st.userRoles.map (fun ur =>
    (st.roles.filter (fun r =>
      ur.roleId == r.id && ur.userId == userId && r.name == roleName)).length)).sum

/-- `User.HasRole` (`getUserRoleQuery`): scans `SELECT COUNT(1)` into `count`
and returns `count > 0`. -/
def User.HasRole (u : User) (roleName : String) : Except Err Bool :=
  match u.DBContract with
  | none => .error .noSchema
  | some st =>
    match st.failure with
    | some e => .error (.storeErr e)
    | none => .ok (userRoleJoinCount st u.row.id roleName > 0)

/-- The number of rows produced by the three-way join of
`getUserPermissionQuery`'s inner subquery:
`FROM rbac_user_role ur JOIN rbac_role_permission rp ON ur.role_id = rp.role_id
JOIN rbac_permission p ON p.id = rp.permission_id
WHERE ur.user_id = ? AND p.name = ?`. -/
def permissionJoinCount (st : Store) (userId : Int64) (permissionName : String) : Nat :=
  (st.userRoles.map (fun ur =>
    (st.rolePermissions.map (fun rp =>
      (st.permissions.filter (fun p =>
        ur.roleId == rp.roleId && p.id == rp.permissionId &&
        ur.userId == userId && p.name == permissionName)).length)).sum)).sum

/-- The result rows of the inner subquery of `getUserPermissionQuery`:
`SELECT COUNT(1) as count FROM ... WHERE ...`.  This is an aggregate query
with no `GROUP BY`, so under MySQL semantics it returns exactly one row
(holding the count), whether or not any join row matched the filter. -/
def permissionSubqueryRows (st : Store) (userId : Int64) (permissionName : String) :
    List Nat :=
  [permissionJoinCount st userId permissionName]

/-- `User.HasPermission` (`getUserPermissionQuery`):
`SELECT EXISTS(<subquery>) AS is_exist` scanned into a bool.  `EXISTS` tests
whether the subquery produced at least one row. -/
def User.HasPermission (u : User) (permissionName : String) : Except Err Bool :=
  match u.DBContract with
  | none => .error .noSchema
  | some st =>
    match st.failure with
    | some e => .error (.storeErr e)
    | none => .ok (!(permissionSubqueryRows st u.row.id permissionName).isEmpty)

/-- The number of rows produced by the join of `getAccessQuery`'s inner
subquery, filtered by `ur.user_id = ? AND p.method = ? AND p.route = ?`
(exact string equality on method and route). -/
def accessJoinCount (st : Store) (userId : Int64) (method route : String) : Nat :=
  (st.userRoles.map (fun ur =>
    (st.rolePermissions.map (fun rp =>
      (st.permissions.filter (fun p =>
        ur.roleId == rp.roleId && p.id == rp.permissionId &&
        ur.userId == userId && p.method == method && p.route == route)).length)).sum)).sum

/-- `User.CanAccess` (`getAccessQuery`): `SELECT EXISTS(SELECT * FROM ... WHERE ...)`
scanned into a bool — true iff at least one join row satisfies the filter. -/
def User.CanAccess (u : User) (method route : String) : Except Err Bool :=
  match u.DBContract with
  | none => .error .noSchema
  | some st =>
    match st.failure with
    | some e => .error (.storeErr e)
    | none => .ok (accessJoinCount st u.row.id method route > 0)

/-! ## Entity store operations

Each mutating operation returns the Go `error` value, the (possibly
mutated) receiver entity, the post-state of its store handle, and the list
of SQL statements it sent to the store (`trace`).  A nil handle
(`DBContract = none`) is checked first and yields `pager.ErrNoSchema` with
an empty trace and an untouched entity, exactly as in the source.
Unique-constraint violations and other per-statement driver failures are
subsumed under the store's `failure` field (they surface as `storeErr`). -/

structure OpResult (α : Type) where
  err : Option Err := none
  entity : α
  store : Option Store
  trace : List String := []
deriving DecidableEq

/-- MySQL auto-increment / `LastInsertId`: one more than the largest id. -/
def nextId (ids : List Int64) : Int64 := (ids.foldl max 0) + 1

/-- `insertUserQuery` (whitespace flattened). -/
def insertUserQuery : String :=
  "INSERT INTO rbac_user (email, username, password) VALUES (?,?,?)"

/-- `User.CreateUser`: nil-handle check, then the insert; on success the
receiver gets the assigned id and `Active = true`. -/
def User.CreateUser (u : User) : OpResult User :=
  match u.DBContract with
  | none => { err := some .noSchema, entity := u, store := none }
  | some st =>
    match st.failure with
    | some e => { err := some (.storeErr e), entity := u, store := some st,
                  trace := [insertUserQuery] }
    | none =>
      let newId := nextId (st.users.map (·.id))
      let row : UserRow :=
        { id := newId, username := u.row.username, email := u.row.email,
          password := u.row.password, active := true }
      { entity := { u with row := { u.row with id := newId, active := true } },
        store := some { st with users := st.users ++ [row] },
        trace := [insertUserQuery] }

/-- `saveUserQuery` (whitespace flattened). -/
def saveUserQuery : String :=
  "INSERT INTO rbac_user (email, username, password, active) VALUES (?, ?, ?, ?) " ++
  "ON DUPLICATE KEY UPDATE email = ?, username = ?, password = ?, active = ?"

/-- `User.Save`: nil-handle check, then the upsert.  A row sharing the
receiver's email or username (the unique keys) is updated in place;
otherwise a fresh row is inserted and the receiver gets its id. -/
def User.Save (u : User) : OpResult User :=
  match u.DBContract with
  | none => { err := some .noSchema, entity := u, store := none }
  | some st =>
    match st.failure with
    | some e => { err := some (.storeErr e), entity := u, store := some st,
                  trace := [saveUserQuery] }
    | none =>
      if st.users.any (fun r => r.email == u.row.email || r.username == u.row.username) then
        let upd := fun (r : UserRow) =>
          if r.email == u.row.email || r.username == u.row.username then
            { r with email := u.row.email, username := u.row.username,
                     password := u.row.password, active := u.row.active }
          else r
        { entity := u, store := some { st with users := st.users.map upd },
          trace := [saveUserQuery] }
      else
        let newId := nextId (st.users.map (·.id))
        { entity := { u with row := { u.row with id := newId } },
          store := some { st with users := st.users ++ [{ u.row with id := newId }] },
          trace := [saveUserQuery] }

/-- `deleteUserQuery`. -/
def deleteUserQuery : String := "DELETE FROM rbac_user WHERE id = ?"

/-- `User.Delete`: nil-handle check, then the delete by the receiver's id. -/
def User.Delete (u : User) : OpResult User :=
  match u.DBContract with
  | none => { err := some .noSchema, entity := u, store := none }
  | some st =>
    match st.failure with
    | some e => { err := some (.storeErr e), entity := u, store := some st,
                  trace := [deleteUserQuery] }
    | none =>
      { entity := u,
        store := some { st with users := st.users.filter (fun r => !(r.id == u.row.id)) },
        trace := [deleteUserQuery] }

/-! ### User lookups -/

/-- A single-entry filter of `FindUser`'s `params` map, as used by the auth
module (`{"email": ...}`, `{"username": ...}`, `{"id": ...}`). -/
inductive UserFilter where
  | byEmail (e : String)
  | byUsername (un : String)
  | byId (i : Int64)
deriving DecidableEq

def UserFilter.matches : UserFilter → UserRow → Bool
  | .byEmail e, r => r.email == e
  | .byUsername un, r => r.username == un
  | .byId i, r => r.id == i

/-- `User.FindUser` specialized to a single-entry params map (the only shape
the auth module uses; with one entry the generated query is well-formed —
see `findUserQueryText`).  Mirrors the source's result handling:
nil handle ⇒ `(nil, ErrNoSchema)`; driver error ⇒ `(nil, err)`;
`sql.ErrNoRows` ⇒ `(nil, nil)`; a row ⇒ the user with the handle attached.
`LIMIT 1` with no ORDER BY is determinized to the first row in table order. -/
def User.FindUser1 (u : User) (f : UserFilter) : Option User × Option Err :=
  match u.DBContract with
  | none => (none, some .noSchema)
  | some st =>
    match st.failure with
    | some e => (none, some (.storeErr e))
    | none =>
      match st.users.find? f.matches with
      | none => (none, none)
      | some row => (some { DBContract := some st, row := row }, none)

/-- `User.FindUserByUsernameOrEmail` (`fetchUserByUsernameOrEmail`):
`WHERE email = ? OR username = ?`, one scanned row. -/
def User.FindUserByUsernameOrEmail (u : User) (p : String) : Option User × Option Err :=
  match u.DBContract with
  | none => (none, some .noSchema)
  | some st =>
    match st.failure with
    | some e => (none, some (.storeErr e))
    | none =>
      match st.users.find? (fun r => r.email == p || r.username == p) with
      | none => (none, none)
      | some row => (some { DBContract := some st, row := row }, none)

/-! ### The dynamic-filter query builder of `FindUser` / `FindUserContext`

The source builds the SQL text by iterating the params map:

```
index := 0
for k := range params {
    query += fmt.Sprintf("%s = ?", k)
    if index < paramsLength-1 {
        query += ` AND `
    }
    values = append(values, params[k])
}
query += " LIMIT 1"
```

`index` is initialized to 0 and never incremented.  The embedding takes the
map's keys in their (unspecified) iteration order as a list. -/

/-- `fetchDynamicUserParams` (whitespace flattened). -/
def fetchDynamicUserParams : String :=
  "SELECT id, email, username, password, active FROM rbac_user WHERE "

/-- The query text built by `FindUser`/`FindUserContext` for a params map
whose keys iterate in the order `keys`. -/
def findUserQueryText (keys : List String) : String :=
  let paramsLength := keys.length
  let index := 0
  (keys.foldl (fun query k =>
    let query := query ++ k ++ " = ?"
    if index < paramsLength - 1 then query ++ " AND " else query)
    fetchDynamicUserParams) ++ " LIMIT 1"

/-! ### Role operations (`schema/role.go`) -/

/-- `insertRoleQuery` (whitespace flattened). -/
def insertRoleQuery : String :=
  "INSERT INTO rbac_role (name, description) VALUES (?,?)"

/-- `Role.CreateRole`: nil-handle check, then the insert; the receiver gets
the assigned id. -/
def Role.CreateRole (r : Role) : OpResult Role :=
  match r.DBContract with
  | none => { err := some .noSchema, entity := r, store := none }
  | some st =>
    match st.failure with
    | some e => { err := some (.storeErr e), entity := r, store := some st,
                  trace := [insertRoleQuery] }
    | none =>
      let newId := nextId (st.roles.map (·.id))
      { entity := { r with row := { r.row with id := newId } },
        store := some { st with roles := st.roles ++ [{ r.row with id := newId }] },
        trace := [insertRoleQuery] }

/-- `saveRoleQuery` (whitespace flattened). -/
def saveRoleQuery : String :=
  "INSERT INTO rbac_role (name, description) VALUES (?, ?) " ++
  "ON DUPLICATE KEY UPDATE name = ?, description = ?"

/-- `Role.Save`: nil-handle check, then the upsert keyed on the unique name. -/
def Role.Save (r : Role) : OpResult Role :=
  match r.DBContract with
  | none => { err := some .noSchema, entity := r, store := none }
  | some st =>
    match st.failure with
    | some e => { err := some (.storeErr e), entity := r, store := some st,
                  trace := [saveRoleQuery] }
    | none =>
      if st.roles.any (fun x => x.name == r.row.name) then
        let upd := fun (x : RoleRow) =>
          if x.name == r.row.name then { x with description := r.row.description } else x
        { entity := r, store := some { st with roles := st.roles.map upd },
          trace := [saveRoleQuery] }
      else
        let newId := nextId (st.roles.map (·.id))
        { entity := { r with row := { r.row with id := newId } },
          store := some { st with roles := st.roles ++ [{ r.row with id := newId }] },
          trace := [saveRoleQuery] }

/-- `deleteRoleQuery`. -/
def deleteRoleQuery : String := "DELETE FROM rbac_role WHERE id = ?"

/-- `Role.Delete`: nil-handle check first, then the `ID <= 0` check
(`ErrInvalidID`), then the delete. -/
def Role.Delete (r : Role) : OpResult Role :=
  match r.DBContract with
  | none => { err := some .noSchema, entity := r, store := none }
  | some st =>
    if r.row.id ≤ 0 then
      { err := some .invalidID, entity := r, store := some st }
    else
      match st.failure with
      | some e => { err := some (.storeErr e), entity := r, store := some st,
                    trace := [deleteRoleQuery] }
      | none =>
        { entity := r,
          store := some { st with roles := st.roles.filter (fun x => !(x.id == r.row.id)) },
          trace := [deleteRoleQuery] }

/-- `assignRoleQuery` (whitespace flattened). -/
def assignRoleQuery : String :=
  "INSERT INTO rbac_user_role (role_id, user_id) VALUES (?,?)"

/-- `Role.Assign`: nil-handle check, then `r.ID <= 0 || u.ID <= 0` ⇒
`ErrInvalidID`, then the insert into `rbac_user_role`. -/
def Role.Assign (r : Role) (u : User) : OpResult Role :=
  match r.DBContract with
  | none => { err := some .noSchema, entity := r, store := none }
  | some st =>
    if r.row.id ≤ 0 ∨ u.row.id ≤ 0 then
      { err := some .invalidID, entity := r, store := some st }
    else
      match st.failure with
      | some e => { err := some (.storeErr e), entity := r, store := some st,
                    trace := [assignRoleQuery] }
      | none =>
        let st2 := { st with userRoles := st.userRoles ++ [{ roleId := r.row.id, userId := u.row.id }] }
        { entity := r, store := some st2, trace := [assignRoleQuery] }

/-- `revokeRoleQuery`. -/
def revokeRoleQuery : String :=
  "DELETE FROM rbac_user_role WHERE role_id = ? AND user_id = ?"

/-- `Role.Revoke`: nil-handle check, id checks, then the delete from
`rbac_user_role`. -/
def Role.Revoke (r : Role) (u : User) : OpResult Role :=
  match r.DBContract with
  | none => { err := some .noSchema, entity := r, store := none }
  | some st =>
    if r.row.id ≤ 0 ∨ u.row.id ≤ 0 then
      { err := some .invalidID, entity := r, store := some st }
    else
      match st.failure with
      | some e => { err := some (.storeErr e), entity := r, store := some st,
                    trace := [revokeRoleQuery] }
      | none =>
        let st2 := { st with userRoles := st.userRoles.filter (fun ur => !(ur.roleId == r.row.id && ur.userId == u.row.id)) }
        { entity := r, store := some st2, trace := [revokeRoleQuery] }

/-- `addPermissionQuery` (whitespace flattened). -/
def addPermissionQuery : String :=
  "INSERT INTO rbac_role_permission (role_id, permission_id) VALUES (?,?)"

/-- `Role.AddPermission`: nil-handle check, id checks, then the insert into
`rbac_role_permission`. -/
def Role.AddPermission (r : Role) (p : Permission) : OpResult Role :=
  match r.DBContract with
  | none => { err := some .noSchema, entity := r, store := none }
  | some st =>
    if r.row.id ≤ 0 ∨ p.row.id ≤ 0 then
      { err := some .invalidID, entity := r, store := some st }
    else
      match st.failure with
      | some e => { err := some (.storeErr e), entity := r, store := some st,
                    trace := [addPermissionQuery] }
      | none =>
        let st2 := { st with rolePermissions := st.rolePermissions ++ [{ roleId := r.row.id, permissionId := p.row.id }] }
        { entity := r, store := some st2, trace := [addPermissionQuery] }

/-- `removePermissionQuery`. -/
def removePermissionQuery : String :=
  "DELETE FROM rbac_role_permission WHERE role_id = ? AND permission_id = ?"

/-- `Role.RemovePermission`: nil-handle check, id checks, then the delete
from `rbac_role_permission`. -/
def Role.RemovePermission (r : Role) (p : Permission) : OpResult Role :=
  match r.DBContract with
  | none => { err := some .noSchema, entity := r, store := none }
  | some st =>
    if r.row.id ≤ 0 ∨ p.row.id ≤ 0 then
      { err := some .invalidID, entity := r, store := some st }
    else
      match st.failure with
      | some e => { err := some (.storeErr e), entity := r, store := some st,
                    trace := [removePermissionQuery] }
      | none =>
        let st2 := { st with rolePermissions := st.rolePermissions.filter (fun rp => !(rp.roleId == r.row.id && rp.permissionId == p.row.id)) }
        { entity := r, store := some st2, trace := [removePermissionQuery] }

/-- `Role.GetRole` (`fetchRoleQuery`): lookup by unique name; nil handle ⇒
`(nil, ErrNoSchema)`; `sql.ErrNoRows` ⇒ `(nil, nil)`. -/
def Role.GetRole (r : Role) (name : String) : Option RoleRow × Option Err :=
  match r.DBContract with
  | none => (none, some .noSchema)
  | some st =>
    match st.failure with
    | some e => (none, some (.storeErr e))
    | none =>
      match st.roles.find? (fun x => x.name == name) with
      | none => (none, none)
      | some row => (some row, none)

/-! ### Permission operations (`schema/permission.go`) -/

/-- `insertPermissionQuery` (whitespace flattened). -/
def insertPermissionQuery : String :=
  "INSERT INTO rbac_permission (name, method, route, description) VALUES (?,?,?,?)"

/-- `Permission.CreatePermission`: nil-handle check, then the insert; the
receiver gets the assigned id. -/
def Permission.CreatePermission (p : Permission) : OpResult Permission :=
  match p.DBContract with
  | none => { err := some .noSchema, entity := p, store := none }
  | some st =>
    match st.failure with
    | some e => { err := some (.storeErr e), entity := p, store := some st,
                  trace := [insertPermissionQuery] }
    | none =>
      let newId := nextId (st.permissions.map (·.id))
      { entity := { p with row := { p.row with id := newId } },
        store := some { st with permissions := st.permissions ++ [{ p.row with id := newId }] },
        trace := [insertPermissionQuery] }

/-- `deletePermissionQuery`. -/
def deletePermissionQuery : String := "DELETE FROM rbac_permission WHERE id = ?"

/-- `Permission.DeletePermission`: nil-handle check, then the delete by id. -/
def Permission.DeletePermission (p : Permission) : OpResult Permission :=
  match p.DBContract with
  | none => { err := some .noSchema, entity := p, store := none }
  | some st =>
    match st.failure with
    | some e => { err := some (.storeErr e), entity := p, store := some st,
                  trace := [deletePermissionQuery] }
    | none =>
      let st2 := { st with permissions := st.permissions.filter (fun x => !(x.id == p.row.id)) }
      { entity := p, store := some st2, trace := [deletePermissionQuery] }

/-- `Permission.GetPermission` (`fetchPermissionQuery`): lookup by unique
name; nil handle ⇒ `(nil, ErrNoSchema)`; `sql.ErrNoRows` ⇒ `(nil, nil)`. -/
def Permission.GetPermission (p : Permission) (name : String) :
    Option PermissionRow × Option Err :=
  match p.DBContract with
  | none => (none, some .noSchema)
  | some st =>
    match st.failure with
    | some e => (none, some (.storeErr e))
    | none =>
      match st.permissions.find? (fun x => x.name == name) with
      | none => (none, none)
      | some row => (some row, none)

/-! ## The session cache (go-redis commands used by the auth module)

The cache is an association list `token → user id`.  `SETEX` replaces any
existing entry and requires a positive expiry (Redis errors on
`seconds <= 0`); `GET` yields the value or the `redis.Nil` miss; `DEL`
removes the key and is a no-op when it is absent. -/

abbrev Cache := List (String × Int64)

/-- `GET key`. -/
def cacheGet (c : Cache) (k : String) : Option Int64 :=
  (c.find? (fun p => p.1 == k)).map (·.2)

/-- `SETEX key seconds value`: `none` models the command error for a
non-positive expiry; otherwise the binding is replaced. -/
def cacheSetex (c : Cache) (seconds : Int64) (k : String) (v : Int64) : Option Cache :=
  if seconds > 0 then some ((k, v) :: c.filter (fun p => !(p.1 == k))) else none

/-- `DEL key`. -/
def cacheDel (c : Cache) (k : String) : Cache :=
  c.filter (fun p => !(p.1 == k))

/-! ## The auth module (`auth.go`, the `auth` package in `main/main.go`) -/

/-- `pager.PasswordGenerator`: the pluggable hashing strategy. -/
structure PasswordStrategy where
  HashPassword : String → String
  ValidatePassword : String → String → Bool   -- (hashedPassword, password)

/-- `pager.TokenGenerator`, snapshotted at a single call site: the opaque
strings the generator would return next. -/
structure TokenStrategy where
  GenerateToken : String
  GenerateCookie : String

/-- `auth.LoginMethod`. -/
inductive LoginMethod where
  | email          -- LoginEmail = 0
  | username       -- LoginUsername = 1
  | emailUsername  -- LoginEmailUsername = 2
deriving DecidableEq

/-- `auth.LoginParams`. -/
structure LoginParams where
  Identifier : String
  Password : String
deriving DecidableEq

/-- The `auth.Auth` module.  `dbSchema` is the `schema.Schema`'s
`DbConnection` handle (`dbSchema.User(nil)` wraps exactly this handle). -/
structure AuthMod where
  sessionName : String
  loginMethod : LoginMethod
  expiredInSeconds : Int64
  tokenStrategy : TokenStrategy
  passwordStrategy : PasswordStrategy
  dbSchema : Option Store

/-- The user lookup of `Authenticate`'s `switch a.loginMethod`:
`dbSchema.User(nil).FindUser({...})` for the email / username strategies,
`FindUserByUsernameOrEmail` for the combined one.  Returns the Go pair
`(loggedUser, err)`. -/
def AuthMod.lookupUser (a : AuthMod) (params : LoginParams) : Option User × Option Err :=
  let schemaUser : User :=
    { DBContract := a.dbSchema,
      row := { id := 0, username := "", email := "", password := "", active := false } }
  match a.loginMethod with
  | .email => schemaUser.FindUser1 (.byEmail params.Identifier)
  | .username => schemaUser.FindUser1 (.byUsername params.Identifier)
  | .emailUsername => schemaUser.FindUserByUsernameOrEmail params.Identifier

/-- `Auth.Authenticate`: the lookup, then — in this order — the
`loggedUser == nil` check (⇒ `ErrInvalidUserLogin`), the `err != nil` check
(⇒ the error as-is), the password check (⇒ `ErrInvalidPasswordLogin`), the
active check (⇒ `ErrUserNotActive`). -/
def AuthMod.Authenticate (a : AuthMod) (params : LoginParams) : Except Err User :=
  match a.lookupUser params with
  | (none, _) => .error .invalidUserLogin
  | (some _, some e) => .error e
  | (some loggedUser, none) =>
    if !(a.passwordStrategy.ValidatePassword loggedUser.row.password params.Password) then
      .error .invalidPasswordLogin
    else if !loggedUser.row.active then
      .error .userNotActive
    else
      .ok loggedUser

/-- `Auth.VerifyToken`: `GET token` converted to int64; an absent key is the
`redis.Nil` error, returned as-is (the Go code returns `(-1, err)`). -/
def AuthMod.VerifyToken (a : AuthMod) (c : Cache) (token : String) : Except Err Int64 :=
  match cacheGet c token with
  | none => .error .redisNil
  | some v => .ok v

/-- `Auth.SignIn`: authenticate, generate a token, `SETEX token
expiredInSeconds userID` (write failure ⇒ `ErrCreatingToken`), return the
user and the token.  The second component is the cache after the call. -/
def AuthMod.SignIn (a : AuthMod) (c : Cache) (params : LoginParams) :
    Except Err (User × String) × Cache :=
  match a.Authenticate params with
  | .error e => (.error e, c)
  | .ok loggedUser =>
    let token := a.tokenStrategy.GenerateToken
    match cacheSetex c a.expiredInSeconds token loggedUser.row.id with
    | none => (.error .creatingToken, c)
    | some c2 => (.ok (loggedUser, token), c2)

/-! ## Requests, the request-scoped principal, and the guards -/

/-- The outcome of a Go call that may panic. -/
inductive GoResult (α : Type) where
  | ok (a : α)
  | panicked (msg : String)
deriving DecidableEq

/-- An incoming request, as the guards see it: the `Authorization` header
value (`""` when the header is absent, as `Header.Get` returns), the
cookies, the method and path, and the `UserPrinciple` context value.
`principal = none` means no value was bound under the key;
`principal = some none` is a bound but nil `*schema.User`;
`principal = some (some u)` is a bound principal `u`. -/
structure Request where
  headerAuthorization : String
  cookies : List (String × String)
  method : String
  urlPath : String
  principal : Option (Option User)
deriving DecidableEq

/-- `GetUserLogin`: `ctx.Value(UserPrinciple).(*schema.User)` — an
unchecked type assertion.  When no value is bound the interface is nil and
the assertion panics; a bound (possibly nil) `*schema.User` is returned. -/
def GetUserLogin (r : Request) : GoResult (Option User) :=
  match r.principal with
  | none => .panicked "interface conversion: interface is nil, not *schema.User"
  | some v => .ok v

/-- `Auth.Logout`: `GetUserLogin`; a nil user ⇒ `ErrInvalidUserLogin`;
otherwise `DEL` on `request.Header.Get("Authorization")` — the raw header
value, not its second whitespace part.  Returns the Go error (`none` on
success) and the cache after the call. -/
def AuthMod.Logout (a : AuthMod) (c : Cache) (r : Request) :
    GoResult (Option Err) × Cache :=
  match GetUserLogin r with
  | .panicked m => (.panicked m, c)
  | .ok none => (.ok (some .invalidUserLogin), c)
  | .ok (some _) =>
    let token := r.headerAuthorization
    (.ok none, cacheDel c token)

/-- `schema.FindUser(params, nil)` — the package-level lookup used by
`getUserPrinciple` and `GetUserByToken`.  Its body is not among the provided
source files; it is the package-level variant of the method
`User.FindUser` (same dynamic-filter query against the global connection),
so it is embedded with the same semantics, over the auth module's handle. -/
def schemaFindUser (h : Option Store) (f : UserFilter) : Option User × Option Err :=
  User.FindUser1 { DBContract := h, row := { id := 0, username := "", email := "",
                                             password := "", active := false } } f

/-- Go `strings.Split(s, " ")` with a one-character separator: split at
every occurrence of the space character, keeping empty parts
(`Split("", " ") = [""]`). -/
def goSplitSpaceAux : List Char → List Char → List (List Char)
  | [], acc => [acc.reverse]
  | c :: rest, acc =>
    if c = ' ' then acc.reverse :: goSplitSpaceAux rest [] else goSplitSpaceAux rest (c :: acc)

/-- Go `strings.Split(s, " ")`. -/
def goSplitSpace (s : String) : List String :=
  (goSplitSpaceAux s.data []).map (fun l => String.mk l)

/-- `CookieBasedAuth = 0`. -/
def CookieBasedAuth : Nat := 0

/-- `TokenBasedAuth = 1`. -/
def TokenBasedAuth : Nat := 1

/-- The token-extraction step of `Auth.getUserPrinciple`.
Cookie mode: the named cookie's value, or `ErrInvalidCookie`.
Token mode: `strings.Split(rawToken, " ")` (`goSplitSpace`) must have
exactly two parts, else `ErrInvalidAuthorization`;
the token is the second part.  Any other strategy value leaves the token
`""` (the Go `switch` falls through with `token` unset). -/
def AuthMod.extractToken (a : AuthMod) (r : Request) (strategy : Nat) :
    Except Err String :=
  if strategy = CookieBasedAuth then
    match r.cookies.find? (fun p => p.1 == a.sessionName) with
    | none => .error .invalidCookie
    | some cookieData => .ok cookieData.2
  else if strategy = TokenBasedAuth then
    match goSplitSpace r.headerAuthorization with
    | [_, t] => .ok t
    | _ => .error .invalidAuthorization
  else
    .ok ""

/-- `Auth.getUserPrinciple`: extract the token, `VerifyToken` (any failure ⇒
`ErrValidateCookie`), then `schema.FindUser({"id": userID}, nil)` (an error
⇒ `ErrUserNotFound`).  As in the source, a no-rows lookup returns the Go
pair `(nil, nil)`: no error and a nil user. -/
def AuthMod.getUserPrinciple (a : AuthMod) (c : Cache) (r : Request) (strategy : Nat) :
    Option User × Option Err :=
  match a.extractToken r strategy with
  | .error e => (none, some e)
  | .ok token =>
    match a.VerifyToken c token with
    | .error _ => (none, some .validateCookie)
    | .ok userID =>
      match schemaFindUser a.dbSchema (.byId userID) with
      | (_, some _) => (none, some .userNotFound)
      | (user, none) => (user, none)

/-- What a guarded request resolves to. -/
inductive GuardOutcome where
  | denied (status : Nat)                      -- WriteHeader(status), handler never runs
  | handled (principal : Option (Option User)) -- the handler ran, with this context value
  | panicked (msg : String)
deriving DecidableEq

/-- `Auth.ProtectRouteUsingToken` (bearer-token guard): `getUserPrinciple`
in token mode; an error ⇒ 401 with no side effect on the cache; otherwise
the handler runs with the (possibly nil) user bound to the context.
The second component is the cache after the call. -/
def AuthMod.ProtectRouteUsingToken (a : AuthMod) (c : Cache) (r : Request) :
    GuardOutcome × Cache :=
  match a.getUserPrinciple c r TokenBasedAuth with
  | (_, some _) => (.denied 401, c)
  | (user, none) => (.handled (some user), c)

/-- `Auth.ProtectWithRBAC`: `GetUserLogin` (panics when nothing is bound);
a nil user ⇒ 401; otherwise `user.CanAccess(r.Method, r.URL.Path)` decides
between running the handler and 403.  (The source discards the error
result of `CanAccess`; an errored check denies.) -/
def AuthMod.ProtectWithRBAC (a : AuthMod) (r : Request) : GuardOutcome :=
  match GetUserLogin r with
  | .panicked m => .panicked m
  | .ok none => .denied 401
  | .ok (some user) =>
    match user.CanAccess r.method r.urlPath with
    | .ok true => .handled r.principal
    | _ => .denied 403

/-! ## Concrete instances used by the closed theorems -/

/-- A deterministic test hashing strategy. -/
def demoHash : PasswordStrategy :=
  { HashPassword := fun p => "hash:" ++ p,
    ValidatePassword := fun hashed p => hashed == "hash:" ++ p }

/-- A deterministic test token generator. -/
def demoTokens : TokenStrategy := { GenerateToken := "tok-1", GenerateCookie := "ck-1" }

/-- The registered demo user of spec scenario 1. -/
def aliceRow : UserRow :=
  { id := 1, username := "alice", email := "alice@x.com",
    password := "hash:s3cret", active := true }

/-- A store holding Alice, an `admin` role carrying the `delete-user`
permission, and no role grants at all: every user holds zero roles. -/
def rolelessStore : Store :=
  { users := [aliceRow, { id := 8, username := "bob", email := "bob@x.com",
                          password := "hash:pw", active := true }],
    roles := [{ id := 1, name := "admin", description := "" }],
    permissions := [{ id := 1, name := "delete-user", method := "DELETE",
                      route := "/users", description := "" }],
    userRoles := [],
    rolePermissions := [{ roleId := 1, permissionId := 1 }] }

/-- User 8 as an entity over `rolelessStore`: holds no roles. -/
def bobNoRoles : User :=
  { DBContract := some rolelessStore,
    row := { id := 8, username := "bob", email := "bob@x.com",
             password := "hash:pw", active := true } }

/-- An auth module over a given schema handle, with the demo strategies. -/
def mkAuth (h : Option Store) (lm : LoginMethod) : AuthMod :=
  { sessionName := "_Quiz_App", loginMethod := lm, expiredInSeconds := 3600,
    tokenStrategy := demoTokens, passwordStrategy := demoHash, dbSchema := h }

/-- A request whose context carries no `UserPrinciple` value at all. -/
def unboundReq : Request :=
  { headerAuthorization := "Bearer abc123", cookies := [], method := "GET",
    urlPath := "/users", principal := none }

/-- A store whose driver errors every query with a connectivity failure. -/
def downStore : Store :=
  { users := [aliceRow], roles := [], permissions := [], userRoles := [],
    rolePermissions := [], failure := some "connection refused" }

/-- A healthy store holding only Alice. -/
def aliceStore : Store :=
  { users := [aliceRow], roles := [], permissions := [], userRoles := [],
    rolePermissions := [] }

/-- Alice as the bound request principal. -/
def aliceUser : User := { DBContract := some aliceStore, row := aliceRow }

/-- A request carrying a bearer header and a bound principal. -/
def bearerReq : Request :=
  { headerAuthorization := "Bearer abc123", cookies := [], method := "GET",
    urlPath := "/", principal := some (some aliceUser) }

/-- The spec's reading of "exactly two whitespace-separated parts": the
header's maximal non-whitespace runs (Go `strings.Fields`).  Declared for
comparison against the source's `strings.Split(rawToken, " ")`. -/
def goFieldsAux : List Char → List Char → List (List Char)
  | [], acc => [acc.reverse]
  | c :: rest, acc =>
    if c.isWhitespace then acc.reverse :: goFieldsAux rest [] else goFieldsAux rest (c :: acc)

/-- Go `strings.Fields`: the maximal non-whitespace runs. -/
def specWhitespaceParts (s : String) : List String :=
  ((goFieldsAux s.data []).filter (fun l => !l.isEmpty)).map (fun l => String.mk l)

/-- A bearer request whose header starts with a space: one
whitespace-separated part, but two parts under `Split(_, " ")`. -/
def leadSpaceReq : Request :=
  { headerAuthorization := " abc123", cookies := [], method := "GET",
    urlPath := "/", principal := none }

/-- The spec's scenario-4 malformed header: no scheme. -/
def noSchemeReq : Request :=
  { headerAuthorization := "abc123", cookies := [], method := "GET",
    urlPath := "/", principal := none }

/-- The spec's scenario-4 well-formed header. -/
def schemeReq : Request :=
  { headerAuthorization := "Bearer abc123", cookies := [], method := "GET",
    urlPath := "/", principal := none }

/-- An inactive stored user. -/
def inactiveBobRow : UserRow :=
  { id := 2, username := "bob", email := "bob@x.com",
    password := "hash:pw", active := false }

/-- A store holding only the inactive user. -/
def inactiveStore : Store :=
  { users := [inactiveBobRow], roles := [], permissions := [], userRoles := [],
    rolePermissions := [] }

/-- The inactive user as the lookup returns it. -/
def inactiveBob : User := { DBContract := some inactiveStore, row := inactiveBobRow }

/-- C1.  The claim says that for a user holding no roles all three access
checks return `false` without an error.  `HasRole` and `CanAccess` do; but
`HasPermission`'s query is `SELECT EXISTS(SELECT COUNT(1) ... WHERE ...)`,
and the aggregate subquery returns exactly one row even when no join row
matches, so `EXISTS` — and therefore `HasPermission` — is `true` for every
user and permission name, including user 8 who holds no roles. -/
theorem roleless_user_haspermission_is_true :
    bobNoRoles.HasRole "admin" = .ok false ∧
    bobNoRoles.CanAccess "DELETE" "/users" = .ok false ∧
    bobNoRoles.HasPermission "delete-user" = .ok true := by
  decide

/-- C2.  With no Principal bound to the request scope, `GetUserLogin`'s
unchecked type assertion panics, so `ProtectWithRBAC` panics instead of
denying with 401 and `Logout` panics instead of returning
`ErrInvalidUserLogin`.  (The `user == nil` checks that would produce
401 / `ErrInvalidUserLogin` are reachable only for a bound typed-nil
pointer, never for an absent binding.) -/
theorem unbound_principal_panics :
    (mkAuth (some rolelessStore) .email).ProtectWithRBAC unboundReq =
      .panicked "interface conversion: interface is nil, not *schema.User" ∧
    ((mkAuth (some rolelessStore) .email).Logout [] unboundReq).1 =
      .panicked "interface conversion: interface is nil, not *schema.User" ∧
    (mkAuth (some rolelessStore) .email).ProtectWithRBAC unboundReq ≠ .denied 401 ∧
    ((mkAuth (some rolelessStore) .email).Logout [] unboundReq).1 ≠
      .ok (some .invalidUserLogin) := by
  decide

/-- C3.  When the user lookup fails with a storage error that is not the
no-rows case, `FindUser` returns `(nil, err)`; `Authenticate` checks
`loggedUser == nil` *before* `err != nil`, so it reports
`ErrInvalidUserLogin` and the underlying storage error is swallowed (the
error-propagation branch is unreachable). -/
theorem storage_error_swallowed :
    (mkAuth (some downStore) .email).Authenticate
        { Identifier := "alice@x.com", Password := "s3cret" } =
      .error .invalidUserLogin ∧
    (mkAuth (some downStore) .email).Authenticate
        { Identifier := "alice@x.com", Password := "s3cret" } ≠
      .error (.storeErr "connection refused") := by
  decide

/-- C4.  `Logout` passes `request.Header.Get("Authorization")` — the whole
header value `"Bearer abc123"` — to `DEL`, not the second part `"abc123"`
that the bearer guard stored the session under.  The session cache is left
unchanged and the token still verifies afterwards. -/
theorem logout_deletes_raw_header_not_token :
    ((mkAuth (some aliceStore) .email).Logout [("abc123", 42)] bearerReq).1 = .ok none ∧
    ((mkAuth (some aliceStore) .email).Logout [("abc123", 42)] bearerReq).2 =
      [("abc123", 42)] ∧
    (mkAuth (some aliceStore) .email).VerifyToken
        ((mkAuth (some aliceStore) .email).Logout [("abc123", 42)] bearerReq).2 "abc123" =
      .ok 42 := by
  decide

/-- C5 counterexample.  A successful `Authenticate` returns the stored user
with the `Password` field still holding the stored secret hash — it is not
cleared. -/
theorem authenticate_password_not_cleared :
    (mkAuth (some aliceStore) .email).Authenticate
        { Identifier := "alice@x.com", Password := "s3cret" } = .ok aliceUser ∧
    aliceUser.row.password = "hash:s3cret" ∧
    aliceUser.row.password ≠ "" := by
  decide

/-- C5 (amended).  The user a successful `Authenticate` returns is exactly
the value produced by the store lookup: no field is modified on the way
out, so the `Password` field still carries the stored secret hash (it is
only excluded from JSON serialization by the struct tag, not cleared). -/
theorem authenticate_returns_stored_user (a : AuthMod) (p : LoginParams) (u : User)
    (h : a.Authenticate p = .ok u) :
    (a.lookupUser p).1 = some u := by
  unfold AuthMod.Authenticate at h
  rcases hl : a.lookupUser p with ⟨ou, oe⟩
  rw [hl] at h
  cases ou with
  | none => simp at h
  | some v =>
    cases oe with
    | some e => simp at h
    | none =>
      simp only [hl]
      cases hpw : a.passwordStrategy.ValidatePassword v.row.password p.Password with
      | false => simp [hpw] at h
      | true =>
        cases hact : v.row.active with
        | false => simp [hpw, hact] at h
        | true =>
          simp [hpw, hact] at h
          rw [h]

/-- C5 witness. -/
theorem authenticate_returns_stored_user_witness :
    ((mkAuth (some aliceStore) .email).lookupUser
        { Identifier := "alice@x.com", Password := "s3cret" }).1 = some aliceUser :=
  authenticate_returns_stored_user (mkAuth (some aliceStore) .email)
    { Identifier := "alice@x.com", Password := "s3cret" } aliceUser (by decide)

/-- A fresh `SETEX` binding is what `GET` returns. -/
lemma cacheGet_cons_self (c : Cache) (k : String) (v : Int64) :
    cacheGet ((k, v) :: c) k = some v := by
  simp [cacheGet, List.find?_cons_of_pos]

/-- After `DEL key`, `GET key` misses. -/
lemma cacheGet_del_self (c : Cache) (k : String) :
    cacheGet (cacheDel c k) k = none := by
  induction c with
  | nil => rfl
  | cons hd tl ih =>
    cases hk : hd.1 == k with
    | true => simpa [cacheDel, List.filter_cons, hk] using ih
    | false =>
      simpa [cacheDel, cacheGet, List.filter_cons, List.find?_cons, hk] using ih

/-- C6.  When `SignIn` succeeds with token `t` and post-cache `c2`, an
immediate `VerifyToken t` returns the signed-in user's id, and after the
revoking `DEL t` it fails with the cache-miss error (`redis.Nil` — the
"session invalid" outcome: the mapping is absent). -/
theorem signIn_verify_roundtrip (a : AuthMod) (c : Cache) (p : LoginParams)
    (u : User) (t : String) (c2 : Cache)
    (h : a.SignIn c p = (.ok (u, t), c2)) :
    a.VerifyToken c2 t = .ok u.row.id ∧
    a.VerifyToken (cacheDel c2 t) t = .error .redisNil := by
  have h2 : a.VerifyToken (cacheDel c2 t) t = .error .redisNil := by
    unfold AuthMod.VerifyToken
    rw [cacheGet_del_self]
  refine ⟨?_, h2⟩
  unfold AuthMod.SignIn at h
  cases ha : a.Authenticate p with
  | error e => rw [ha] at h; simp at h
  | ok lu =>
    rw [ha] at h
    dsimp only at h
    cases hs : cacheSetex c a.expiredInSeconds a.tokenStrategy.GenerateToken lu.row.id with
    | none => rw [hs] at h; simp at h
    | some cc =>
      rw [hs] at h
      simp only [Prod.mk.injEq, Except.ok.injEq] at h
      obtain ⟨⟨hu, ht⟩, hc⟩ := h
      unfold cacheSetex at hs
      split at hs
      · injection hs with hcc
        rw [← hc, ← hcc, ht, hu] at *
        unfold AuthMod.VerifyToken
        rw [cacheGet_cons_self]
      · cases hs

/-- C6 witness. -/
theorem signIn_verify_roundtrip_witness :
    (mkAuth (some aliceStore) .email).VerifyToken [("tok-1", 1)] "tok-1" =
      .ok aliceUser.row.id ∧
    (mkAuth (some aliceStore) .email).VerifyToken
        (cacheDel [("tok-1", 1)] "tok-1") "tok-1" = .error .redisNil :=
  signIn_verify_roundtrip (mkAuth (some aliceStore) .email) []
    { Identifier := "alice@x.com", Password := "s3cret" } aliceUser "tok-1"
    [("tok-1", 1)] (by decide)

/-- C7 counterexample.  The header `" abc123"` consists of exactly one
whitespace-separated part, so the claim requires `InvalidAuthorization`
and a 401; but `strings.Split(_, " ")` yields `["", "abc123"]` — two
parts — so the guard takes `"abc123"` as the session token, verifies it,
binds the principal, and runs the handler. -/
theorem bearer_whitespace_shape_counterexample :
    (specWhitespaceParts " abc123").length = 1 ∧
    (mkAuth (some aliceStore) .email).getUserPrinciple [("abc123", 1)] leadSpaceReq
        TokenBasedAuth = (some aliceUser, none) ∧
    (mkAuth (some aliceStore) .email).ProtectRouteUsingToken [("abc123", 1)]
        leadSpaceReq = (.handled (some (some aliceUser)), [("abc123", 1)]) := by
  decide

/-- C7 (amended).  The bearer guard splits the `Authorization` header on
the single space character: exactly two space-separated parts make the
second part the session token; any other shape under that split fails with
`InvalidAuthorization` and the guard denies with 401 leaving the session
cache untouched (no cleanup side effect). -/
theorem bearer_token_single_space_split (a : AuthMod) (c : Cache) (r : Request) :
    (∀ s t, goSplitSpace r.headerAuthorization = [s, t] →
      a.extractToken r TokenBasedAuth = .ok t) ∧
    ((goSplitSpace r.headerAuthorization).length ≠ 2 →
      a.extractToken r TokenBasedAuth = .error .invalidAuthorization ∧
      a.ProtectRouteUsingToken c r = (.denied 401, c)) := by
  constructor
  · intro s t hst
    simp [AuthMod.extractToken, TokenBasedAuth, CookieBasedAuth, hst]
  · intro hlen
    have hext : a.extractToken r TokenBasedAuth = .error .invalidAuthorization := by
      unfold AuthMod.extractToken
      simp only [TokenBasedAuth, CookieBasedAuth]
      norm_num
      cases hsp : goSplitSpace r.headerAuthorization with
      | nil => rfl
      | cons x xs =>
        cases xs with
        | nil => rfl
        | cons y ys =>
          cases ys with
          | nil => exact absurd (by simp [hsp]) hlen
          | cons z zs => rfl
    refine ⟨hext, ?_⟩
    simp [AuthMod.ProtectRouteUsingToken, AuthMod.getUserPrinciple, hext]

/-- C7 witness. -/
theorem bearer_token_single_space_split_witness :
    (mkAuth (some aliceStore) .email).extractToken schemeReq TokenBasedAuth =
      .ok "abc123" ∧
    ((mkAuth (some aliceStore) .email).extractToken noSchemeReq TokenBasedAuth =
        .error .invalidAuthorization ∧
      (mkAuth (some aliceStore) .email).ProtectRouteUsingToken [] noSchemeReq =
        (.denied 401, [])) :=
  ⟨(bearer_token_single_space_split (mkAuth (some aliceStore) .email) [] schemeReq).1
      "Bearer" "abc123" (by decide),
   (bearer_token_single_space_split (mkAuth (some aliceStore) .email) [] noSchemeReq).2
      (by decide)⟩

/-- C8.  When the lookup finds a stored user whose active flag is false,
`Authenticate` fails with `UserNotActive` whenever the secret verifies, and
never succeeds for that user regardless of the secret. -/
theorem inactive_user_never_authenticates (a : AuthMod) (p : LoginParams) (u : User)
    (hl : a.lookupUser p = (some u, none)) (hact : u.row.active = false) :
    (a.passwordStrategy.ValidatePassword u.row.password p.Password = true →
      a.Authenticate p = .error .userNotActive) ∧
    (∀ v, a.Authenticate p ≠ .ok v) := by
  unfold AuthMod.Authenticate
  rw [hl]
  constructor
  · intro hpw
    simp [hpw, hact]
  · intro v
    cases hpw : a.passwordStrategy.ValidatePassword u.row.password p.Password with
    | false => simp [hpw]
    | true => simp [hpw, hact]

/-- C8 witness. -/
theorem inactive_user_never_authenticates_witness :
    (mkAuth (some inactiveStore) .email).Authenticate
        { Identifier := "bob@x.com", Password := "pw" } = .error .userNotActive ∧
    (mkAuth (some inactiveStore) .email).Authenticate
        { Identifier := "bob@x.com", Password := "pw" } ≠ .ok inactiveBob :=
  ⟨(inactive_user_never_authenticates (mkAuth (some inactiveStore) .email)
      { Identifier := "bob@x.com", Password := "pw" } inactiveBob
      (by decide) (by decide)).1 (by decide),
   (inactive_user_never_authenticates (mkAuth (some inactiveStore) .email)
      { Identifier := "bob@x.com", Password := "pw" } inactiveBob
      (by decide) (by decide)).2 inactiveBob⟩

/-- When every loop iteration of the query builder appends `" AND "` (the
`index < paramsLength-1` condition stays true because `index` is never
incremented), the accumulated text ends in `" AND "` for any non-empty key
list. -/
lemma foldl_trailing_and : ∀ (keys : List String) (q : String), keys ≠ [] →
    ∃ b, keys.foldl (fun query k => query ++ k ++ " = ?" ++ " AND ") q = b ++ " AND "
  | [], _, h => absurd rfl h
  | [k], q, _ => ⟨q ++ k ++ " = ?", rfl⟩
  | k :: k2 :: rest, q, _ =>
    foldl_trailing_and (k2 :: rest) (q ++ k ++ " = ?" ++ " AND ") (by simp)

/-- C9.  The builder's separator counter `index` is never incremented, so
for a params map with two or more entries `0 < paramsLength - 1` holds on
every iteration and `" AND "` is appended after every predicate, the last
one included: the generated text is `<body> ++ " AND " ++ " LIMIT 1"`,
malformed SQL.  Only for a single-entry map is the WHERE clause well
formed.  (`FindUser` and `FindUserContext` share this builder verbatim.) -/
theorem findUser_query_has_trailing_and (keys : List String) :
    (2 ≤ keys.length →
      ∃ b, findUserQueryText keys = b ++ " AND " ++ " LIMIT 1") ∧
    ∀ k, findUserQueryText [k] =
      fetchDynamicUserParams ++ k ++ " = ?" ++ " LIMIT 1" := by
  constructor
  · intro hlen
    have hc : 0 < keys.length - 1 := by omega
    have hne : keys ≠ [] := by
      cases keys with
      | nil => simp at hlen
      | cons a as => simp
    unfold findUserQueryText
    simp only [if_pos hc]
    obtain ⟨b, hb⟩ := foldl_trailing_and keys fetchDynamicUserParams hne
    exact ⟨b, by rw [hb]⟩
  · intro k
    simp [findUserQueryText]

/-- C9 witness. -/
theorem findUser_query_has_trailing_and_witness :
    (∃ b, findUserQueryText ["email", "username"] = b ++ " AND " ++ " LIMIT 1") ∧
    findUserQueryText ["email"] =
      fetchDynamicUserParams ++ "email" ++ " = ?" ++ " LIMIT 1" :=
  ⟨(findUser_query_has_trailing_and ["email", "username"]).1 (by decide),
   (findUser_query_has_trailing_and ["email"]).2 "email"⟩

/-- C10.  Every embedded entity operation on `User`, `Role` and
`Permission` — create, save, delete, lookup, role assignment/revocation,
permission add/remove, and the access checks — checks its `DBContract`
handle first and, when it is nil, returns `pager.ErrNoSchema` with no SQL
sent to the store (empty trace) and the receiver entity unchanged. -/
theorem nil_handle_rejects_every_operation
    (ur : UserRow) (rr : RoleRow) (pr : PermissionRow) :
    let u : User := { DBContract := none, row := ur }
    let r : Role := { DBContract := none, row := rr }
    let p : Permission := { DBContract := none, row := pr }
    u.CreateUser = { err := some .noSchema, entity := u, store := none } ∧
    u.Save = { err := some .noSchema, entity := u, store := none } ∧
    u.Delete = { err := some .noSchema, entity := u, store := none } ∧
    (∀ f, u.FindUser1 f = (none, some .noSchema)) ∧
    (∀ x, u.FindUserByUsernameOrEmail x = (none, some .noSchema)) ∧
    (∀ n, u.HasRole n = .error .noSchema) ∧
    (∀ n, u.HasPermission n = .error .noSchema) ∧
    (∀ m rt, u.CanAccess m rt = .error .noSchema) ∧
    r.CreateRole = { err := some .noSchema, entity := r, store := none } ∧
    r.Save = { err := some .noSchema, entity := r, store := none } ∧
    r.Delete = { err := some .noSchema, entity := r, store := none } ∧
    (∀ u2, r.Assign u2 = { err := some .noSchema, entity := r, store := none }) ∧
    (∀ u2, r.Revoke u2 = { err := some .noSchema, entity := r, store := none }) ∧
    (∀ p2, r.AddPermission p2 = { err := some .noSchema, entity := r, store := none }) ∧
    (∀ p2, r.RemovePermission p2 = { err := some .noSchema, entity := r, store := none }) ∧
    (∀ n, r.GetRole n = (none, some .noSchema)) ∧
    p.CreatePermission = { err := some .noSchema, entity := p, store := none } ∧
    p.DeletePermission = { err := some .noSchema, entity := p, store := none } ∧
    (∀ n, p.GetPermission n = (none, some .noSchema)) := by
  exact ⟨rfl, rfl, rfl, fun f => rfl, fun x => rfl, fun n => rfl, fun n => rfl,
    fun m rt => rfl, rfl, rfl, rfl, fun u2 => rfl, fun u2 => rfl, fun p2 => rfl,
    fun p2 => rfl, fun n => rfl, rfl, rfl, fun n => rfl⟩

end Pager
